import Mathlib

/-!
Verification of the serverless PyPI index Lambda (`index.py`).

The module is a shallow embedding of the request-routing and
index-rendering logic of the single source file `index.py`:

* API Gateway proxy responses are Python dicts with keys
  `statusCode`, `headers`, `body`; they are modelled by `Response`
  with optional header map and optional body.
* The S3 paginator yields pages; each page optionally carries a
  `Contents` list (object keys) and optionally a `CommonPrefixes`
  list.  A page is modelled by `ListPage`.
* `S3.generate_presigned_url` is an external call; it is modelled by
  an abstract signing function `SignParams → String` applied to the
  exact parameter record the code passes.
* Module-level configuration (`BASE_PATH`, `S3_BUCKET`,
  `S3_PRESIGNED_URL_TTL`) is gathered in `Config`; mutable S3 state
  visible to the handlers (the cached `index.html` object and the
  per-package listings) in `Store`.
* The route regex `^BASE_PATH/([^/]+)$` (the base path interpolated
  by an f-string) is modelled with the base path taken literally, as
  a deployed URL path prefix is: match the literal base path, a
  slash, then one non-empty slash-free segment, anchored both sides.
-/

namespace ServerlessPypi

/-- API Gateway Lambda proxy response dict: `statusCode` always
present, `headers` and `body` only when the producing helper sets
them. -/
structure Response where
  statusCode : Nat
  headers : Option (List (String × String))
  body : Option String
deriving DecidableEq, Repr

/-- The argument record of the `S3.generate_presigned_url` call made
by `presign`. -/
structure SignParams where
  operation : String
  expiresIn : Nat
  httpMethod : String
  bucket : String
  key : String
deriving DecidableEq, Repr

/-- One page of `S3_PAGINATOR.paginate`: `page.get('Contents')` and
`page.get('CommonPrefixes')` each yield a list or `None`. -/
structure ListPage where
  contents : Option (List String)
  commonPrefixes : Option (List String)
deriving DecidableEq, Repr

/-- Process configuration fixed at start: `BASE_PATH` (already
slash-stripped by the module), `S3_BUCKET`, `S3_PRESIGNED_URL_TTL`,
and the external signing service. -/
structure Config where
  basePath : String
  bucket : String
  ttl : Nat
  signer : SignParams → String

/-- The S3 state the request path reads: the bytes cached at the
fixed key `index.html`, and for each package name the pages returned
when listing with that package prefix. -/
structure Store where
  rootIndex : String
  pkgPages : String → List ListPage

/-- The `put_object` call issued by the reindexer. -/
structure PutCall where
  bucket : String
  key : String
  body : String
deriving DecidableEq, Repr

/-- `ANCHOR.safe_substitute(href=..., name=...)` on the template
`<a href="$href">$name</a><br>` (no escaping). -/
def anchorHtml (href nm : String) : String :=
  "<a href=\"" ++ href ++ "\">" ++ nm ++ "</a><br>"

/-- `INDEX.safe_substitute(title=..., anchors=...)`: the minimal HTML
document template, with the title used twice. -/
def indexHtml (title anchors : String) : String :=
  "<!DOCTYPE html><html><head><title>" ++ title ++ "</title></head>" ++
    "<body><h1>" ++ title ++ "</h1>" ++ anchors ++ "</body></html>"

/-- Python `s.strip('/')`: remove every leading and trailing `/`. -/
def stripSlashes (s : String) : String :=
  String.mk (((s.data.dropWhile (· == '/')).reverse.dropWhile (· == '/')).reverse)

/-- Python `os.path.split(x)[-1]`: the substring after the last `/`
(the whole string when there is no `/`). -/
def basename (s : String) : String :=
  String.mk ((s.data.reverse.takeWhile (· ≠ '/')).reverse)

/-- `proxy_reponse(body, content_type=None)`: wrap HTML in the proxy
response dict; a falsy content type (absent or empty) defaults to
`text/html`. -/
def proxy_reponse (body : String) (contentType : Option String) : Response :=
  let ct := match contentType with
    | some s => if s = "" then "text/html" else s
    | none => "text/html"
  { statusCode := 200
    headers := some [("Content-Type", ct ++ "; charset=UTF-8")]
    body := some body }

/-- `redirect(path)`: status 301 with only a `Location` header. -/
def redirect (path : String) : Response :=
  { statusCode := 301, headers := some [("Location", path)], body := none }

/-- `reject(status_code)`: bare status, no headers, no body. -/
def reject (statusCode : Nat) : Response :=
  { statusCode := statusCode, headers := none, body := none }

/-- The parameter record `presign` passes to
`S3.generate_presigned_url('get_object', ExpiresIn=TTL,
HttpMethod='GET', Params=...)`. -/
def presignParams (ttl : Nat) (bucket key : String) : SignParams :=
  { operation := "get_object", expiresIn := ttl, httpMethod := "GET"
    bucket := bucket, key := key }

/-- `presign(key)`: the signed URL returned by the signing service
for the exact parameters the code passes. -/
def presign (signer : SignParams → String) (ttl : Nat) (bucket key : String) : String :=
  signer (presignParams ttl bucket key)

/-- The `keys` comprehension of `get_package_index`: keys of every
page concatenated in page order, a page with no `Contents` entry
contributing nothing (`page.get('Contents') or []`). -/
def pkgKeys (pages : List ListPage) : List String :=
  (pages.map fun page => page.contents.getD []).flatten

/-- The `anchors` list of `get_package_index`: presigned hrefs zipped
with basenames, rendered through the anchor template. -/
def packageAnchors (signer : SignParams → String) (ttl : Nat) (bucket : String)
    (keys : List String) : List String :=
  let hrefs := keys.map (presign signer ttl bucket)
  let names := keys.map basename
  (hrefs.zip names).map fun hn => anchorHtml hn.1 hn.2

/-- `get_package_index(name)`: list the package prefix, presign each
key, render the anchor list and the page titled `Links for name`,
wrap as a proxy response. -/
def get_package_index (signer : SignParams → String) (ttl : Nat) (bucket : String)
    (pages : List ListPage) (nm : String) : Response :=
  let keys := pkgKeys pages
  let anchors := packageAnchors signer ttl bucket keys
  proxy_reponse (indexHtml ("Links for " ++ nm) (String.join anchors)) none

/-- `get_index()`: read the cached `index.html` object and wrap it as
a proxy response. -/
def get_index (store : Store) : Response :=
  proxy_reponse store.rootIndex none

/-- Match a pattern list (the base path characters followed by `/`)
as a literal prefix of the path characters, returning the remainder. -/
def dropPre : List Char → List Char → Option (List Char)
  | [], ys => some ys
  | _ :: _, [] => none
  | x :: xs, y :: ys => if x = y then dropPre xs ys else none

/-- `re.match` of the route pattern: the literal base path, `/`, then
one non-empty slash-free captured segment, anchored at both ends;
`none` replaces the `AttributeError` branch that leaves `name =
None`. -/
def matchPkg (bp path : String) : Option String :=
  match dropPre (bp.data ++ ['/']) path.data with
  | some rest =>
      if rest ≠ [] ∧ '/' ∉ rest then some (String.mk rest) else none
  | none => none

/-- `get_response(path)`: package route first (the captured segment
is necessarily truthy), then exact base path, then empty path, then
403. -/
def get_response (cfg : Config) (store : Store) (path : String) : Response :=
  match matchPkg cfg.basePath path with
  | some nm => get_package_index cfg.signer cfg.ttl cfg.bucket (store.pkgPages nm) nm
  | none =>
      if cfg.basePath = path then get_index store
      else if "" = path then redirect ("/" ++ cfg.basePath)
      else reject 403

/-- `proxy_request(event)`: strip the raw path, dispatch `GET`/`HEAD`
to `get_response`, reject every other method with 403. -/
def proxy_request (cfg : Config) (store : Store) (method rawPath : String) : Response :=
  let path := stripSlashes rawPath
  if method = "GET" ∨ method = "HEAD" then get_response cfg store path
  else reject 403

/-- The raw common prefixes drained by the `pkgs` generator of
`reindex_bucket`: prefixes of all pages concatenated in page order;
iterating a page whose `CommonPrefixes` entry is absent raises
`TypeError` (there is no `or []` guard here, unlike
`get_package_index`). -/
def commonPre : List ListPage → Except String (List String)
  | [] => .ok []
  | page :: rest =>
      match page.commonPrefixes with
      | none => .error "TypeError: NoneType object is not iterable"
      | some ps => (commonPre rest).map fun tail => ps ++ tail

/-- `reindex_bucket(event)`: strip each common prefix, render one
self-referential anchor per package, wrap in the page titled `Simple
index`, and put the bytes at the fixed key `index.html`; a
`TypeError` while draining the generator aborts before the put. -/
def reindex_bucket (bucket : String) (pages : List ListPage) : Except String PutCall :=
  match (commonPre pages).map (List.map stripSlashes) with
  | .error e => .error e
  | .ok pkgs =>
      let anchors := pkgs.map fun pkg => anchorHtml pkg pkg
      let body := indexHtml "Simple index" (String.join anchors)
      .ok { bucket := bucket, key := "index.html", body := body }

/-- Effect of one reindex invocation on the store: a successful put
overwrites the cached `index.html` object, a raised error leaves the
store untouched. -/
def applyReindex (store : Store) (bucket : String) (pages : List ListPage) : Store :=
  match reindex_bucket bucket pages with
  | .ok put => { store with rootIndex := put.body }
  | .error _ => store

/-- A concrete signing function for concrete evaluations. -/
def signer0 : SignParams → String :=
  fun p => "https://signed.example/" ++ p.key ++ "?ttl=" ++ toString p.expiresIn

/-- A concrete store: one artifact under package `foo`. -/
def store0 : Store :=
  { rootIndex := "ROOT"
    pkgPages := fun _ => [{ contents := some ["foo/foo-1.0.whl"], commonPrefixes := none }] }

/-- A configuration with an empty base path. -/
def cfg0 : Config :=
  { basePath := "", bucket := "bkt", ttl := 900, signer := signer0 }

/-- A configuration with base path `simple`. -/
def cfg1 : Config :=
  { basePath := "simple", bucket := "bkt", ttl := 900, signer := signer0 }

/-- A one-page listing whose common prefixes are `a/`, `b/`, `c/`. -/
def pagesABC : List ListPage :=
  [{ contents := none, commonPrefixes := some ["a/", "b/", "c/"] }]

/-- A one-page listing with neither `Contents` nor `CommonPrefixes`. -/
def pagesNone : List ListPage :=
  [{ contents := none, commonPrefixes := none }]

/-! ## Helper lemmas -/

lemma slash_data : ("/" : String).data = ['/'] := rfl

lemma packageAnchors_eq_map (signer : SignParams → String) (ttl : Nat) (bucket : String)
    (keys : List String) :
    packageAnchors signer ttl bucket keys =
      keys.map fun k => anchorHtml (presign signer ttl bucket k) (basename k) := by
  simp [packageAnchors, List.zip_map']

lemma dropPre_append (xs ys : List Char) : dropPre xs (xs ++ ys) = some ys := by
  induction xs with
  | nil => rfl
  | cons x xs ih => simpa [dropPre] using ih

lemma matchPkg_empty_path (bp : String) : matchPkg bp "" = none := by
  unfold matchPkg
  have h0 : ("" : String).data = [] := rfl
  rw [h0]
  cases hb : bp.data with
  | nil => rfl
  | cons c cs => simp [dropPre]

lemma matchPkg_nil_base (p : String) (hs : '/' ∉ p.data) : matchPkg "" p = none := by
  unfold matchPkg
  have h0 : ("" : String).data ++ ['/'] = ['/'] := rfl
  rw [h0]
  cases hp : p.data with
  | nil => rfl
  | cons c cs =>
      have hc : ¬ ('/' = c) := by
        intro e
        exact hs (hp ▸ (e ▸ List.mem_cons_self c cs))
      simp [dropPre, hc]

lemma data_two_seg (bp s1 s2 : String) :
    (bp ++ "/" ++ s1 ++ "/" ++ s2).data =
      (bp.data ++ ['/']) ++ (s1.data ++ '/' :: s2.data) := by
  simp [String.data_append, slash_data]

lemma matchPkg_two_segments (bp s1 s2 : String) :
    matchPkg bp (bp ++ "/" ++ s1 ++ "/" ++ s2) = none := by
  unfold matchPkg
  rw [data_two_seg, dropPre_append]
  have hmem : '/' ∈ s1.data ++ '/' :: s2.data :=
    List.mem_append_right _ (List.mem_cons_self _ _)
  simp [hmem]

lemma commonPre_error (pages : List ListPage) (pg : ListPage)
    (hmem : pg ∈ pages) (hnone : pg.commonPrefixes = none) :
    ∃ e, commonPre pages = .error e := by
  induction pages with
  | nil => cases hmem
  | cons q rest ih =>
      cases hq : q.commonPrefixes with
      | none =>
          exact ⟨"TypeError: NoneType object is not iterable", by simp [commonPre, hq]⟩
      | some ps =>
          rcases List.mem_cons.mp hmem with he | hr
          · rw [he] at hnone
            rw [hnone] at hq
            cases hq
          · obtain ⟨e, he2⟩ := ih hr
            exact ⟨e, by simp [commonPre, hq, he2, Except.map]⟩

/-! ## Claims -/

/-- C1 (amended): with an empty base path the route pattern is
`^/([^/]+)$`, whose mandatory leading slash a normalized path never
has; so for every non-empty single-segment path `p` the pattern does
not match and, since `p` equals neither the base path nor the empty
path, `get_response` falls through to `reject 403` instead of
delegating to `get_package_index`. -/
theorem c1_empty_base_path_rejects (cfg : Config) (store : Store) (p : String)
    (hbp : cfg.basePath = "") (hne : p ≠ "") (hs : '/' ∉ p.data) :
    get_response cfg store p = reject 403 := by
  unfold get_response
  rw [hbp, matchPkg_nil_base p hs]
  have h1 : ¬ (("" : String) = p) := fun e => hne e.symm
  rw [if_neg h1, if_neg h1]

/-- C1 (counterexample): with base path `""` and the normalized
single-segment path `"foo"`, the step-2 pattern does not match and
the route answers `reject 403`, not the package index that
`get_package_index` would return. -/
theorem c1_counterexample :
    cfg0.basePath = "" ∧
    matchPkg "" "foo" = none ∧
    get_response cfg0 store0 "foo" = reject 403 ∧
    get_response cfg0 store0 "foo" ≠
      get_package_index cfg0.signer cfg0.ttl cfg0.bucket (store0.pkgPages "foo") "foo" := by
  refine ⟨rfl, by decide, by decide, by decide⟩

/-- C1 (witness): the amended theorem applied at base path `""`,
path `"foo"`. -/
theorem c1_witness : get_response cfg0 store0 "foo" = reject 403 :=
  c1_empty_base_path_rejects cfg0 store0 "foo" rfl (by decide) (by decide)

/-- C2: over the concatenated listing keys `K = pkgKeys pages`, the
package index renders exactly `|K|` anchors, the `i`-th anchor is the
rendering of the `i`-th key (listing order, no sorting or
deduplication), and the response body is the page built from exactly
that anchor sequence. -/
theorem c2_order_preservation (signer : SignParams → String) (ttl : Nat) (bucket : String)
    (pages : List ListPage) (nm : String) :
    (packageAnchors signer ttl bucket (pkgKeys pages)).length = (pkgKeys pages).length ∧
    (∀ i : Nat,
      (packageAnchors signer ttl bucket (pkgKeys pages))[i]? =
        ((pkgKeys pages)[i]?).map fun k =>
          anchorHtml (presign signer ttl bucket k) (basename k)) ∧
    (get_package_index signer ttl bucket pages nm).body =
      some (indexHtml ("Links for " ++ nm)
        (String.join (packageAnchors signer ttl bucket (pkgKeys pages)))) := by
  refine ⟨?_, ?_, rfl⟩
  · rw [packageAnchors_eq_map, List.length_map]
  · intro i
    rw [packageAnchors_eq_map, List.getElem?_map]

/-- C3: when the listing yields the common prefixes `a/`, `b/`, `c/`
in that order, the reindexer puts, at the fixed key `index.html`, the
page titled `Simple index` holding exactly the three self-referential
anchors for `a`, `b`, `c` in that order, and the store afterwards
caches exactly those bytes whatever it held before. -/
theorem c3_reindex_abc (bucket : String) (store : Store) (pages : List ListPage)
    (h : commonPre pages = .ok ["a/", "b/", "c/"]) :
    reindex_bucket bucket pages = Except.ok
      { bucket := bucket, key := "index.html"
        body := indexHtml "Simple index"
          (String.join [anchorHtml "a" "a", anchorHtml "b" "b", anchorHtml "c" "c"]) } ∧
    (applyReindex store bucket pages).rootIndex =
      indexHtml "Simple index"
        (String.join [anchorHtml "a" "a", anchorHtml "b" "b", anchorHtml "c" "c"]) := by
  have hr : reindex_bucket bucket pages = Except.ok
      { bucket := bucket, key := "index.html"
        body := indexHtml "Simple index"
          (String.join [anchorHtml "a" "a", anchorHtml "b" "b", anchorHtml "c" "c"]) } := by
    unfold reindex_bucket
    rw [h]
    have hstrip : List.map stripSlashes ["a/", "b/", "c/"] = ["a", "b", "c"] := by decide
    simp [Except.map, hstrip]
  exact ⟨hr, by simp [applyReindex, hr]⟩

/-- C3 (witness): the theorem applied to a concrete one-page listing
with prefixes `a/`, `b/`, `c/`. -/
theorem c3_witness :
    reindex_bucket "bkt" pagesABC = Except.ok
      { bucket := "bkt", key := "index.html"
        body := indexHtml "Simple index"
          (String.join [anchorHtml "a" "a", anchorHtml "b" "b", anchorHtml "c" "c"]) } :=
  (c3_reindex_abc "bkt" store0 pagesABC rfl).1

/-- C4: when the listing under the package prefix yields zero keys
(pages with an absent `Contents` entry included), the package index
response has status 200 and its body is the page titled
`Links for nm` with zero anchors. -/
theorem c4_empty_package_ok (signer : SignParams → String) (ttl : Nat) (bucket : String)
    (pages : List ListPage) (nm : String) (h : pkgKeys pages = []) :
    (get_package_index signer ttl bucket pages nm).statusCode = 200 ∧
    packageAnchors signer ttl bucket (pkgKeys pages) = [] ∧
    (get_package_index signer ttl bucket pages nm).body =
      some (indexHtml ("Links for " ++ nm) "") := by
  refine ⟨rfl, ?_, ?_⟩
  · rw [h]; rfl
  · show (proxy_reponse (indexHtml ("Links for " ++ nm)
      (String.join (packageAnchors signer ttl bucket (pkgKeys pages)))) none).body = _
    rw [h]
    rfl

/-- C4 (witness): the theorem applied to a one-page listing with no
`Contents` entry. -/
theorem c4_witness :
    (get_package_index signer0 900 "bkt" pagesNone "foo").statusCode = 200 ∧
    (get_package_index signer0 900 "bkt" pagesNone "foo").body =
      some (indexHtml ("Links for " ++ "foo") "") := by
  have h := c4_empty_package_ok signer0 900 "bkt" pagesNone "foo" (by decide)
  exact ⟨h.1, h.2.2⟩

/-- C5: any method other than `GET` and `HEAD` is answered with
exactly `reject 403` — status 403, no headers, no body — and the
answer does not depend on the configuration or the store, so no
routing, listing, read or signing result can influence it. -/
theorem c5_method_filtering (cfg : Config) (store : Store) (method rawPath : String)
    (h1 : method ≠ "GET") (h2 : method ≠ "HEAD") :
    proxy_request cfg store method rawPath = reject 403 ∧
    reject 403 = { statusCode := 403, headers := none, body := none } ∧
    ∀ (cfg2 : Config) (store2 : Store),
      proxy_request cfg store method rawPath = proxy_request cfg2 store2 method rawPath := by
  have hcond : ¬ (method = "GET" ∨ method = "HEAD") := fun h => h.elim h1 h2
  refine ⟨?_, rfl, fun cfg2 store2 => ?_⟩ <;> simp [proxy_request, hcond]

/-- C5 (witness): the theorem applied to a `POST` request. -/
theorem c5_witness : proxy_request cfg1 store0 "POST" "/simple/foo" = reject 403 :=
  (c5_method_filtering cfg1 store0 "POST" "/simple/foo" (by decide) (by decide)).1

/-- C6: with a non-empty base path, a normalized path carrying two
segments after the base path matches no route — not the package
pattern (the remainder holds a slash), not the base path, not the
empty path — and is answered `reject 403`. -/
theorem c6_multi_segment_rejected (cfg : Config) (store : Store) (s1 s2 : String)
    (hbp : cfg.basePath ≠ "") (h1 : s1 ≠ "" ∧ '/' ∉ s1.data) (h2 : s2 ≠ "" ∧ '/' ∉ s2.data) :
    get_response cfg store (cfg.basePath ++ "/" ++ s1 ++ "/" ++ s2) = reject 403 := by
  unfold get_response
  rw [matchPkg_two_segments]
  have hlen : (cfg.basePath ++ "/" ++ s1 ++ "/" ++ s2).data.length =
      cfg.basePath.data.length + 1 + s1.data.length + 1 + s2.data.length := by
    rw [data_two_seg]
    simp [List.length_append]
    omega
  have ne1 : ¬ (cfg.basePath = cfg.basePath ++ "/" ++ s1 ++ "/" ++ s2) := by
    intro e
    have hl := congrArg List.length (congrArg String.data e)
    rw [hlen] at hl
    omega
  have ne2 : ¬ (("" : String) = cfg.basePath ++ "/" ++ s1 ++ "/" ++ s2) := by
    intro e
    have hl := congrArg List.length (congrArg String.data e)
    have h0 : ("" : String).data.length = 0 := rfl
    rw [hlen, h0] at hl
    omega
  rw [if_neg ne1, if_neg ne2]

/-- C6 (witness): the theorem applied at base path `simple` and the
path `simple/pkg/extra`. -/
theorem c6_witness :
    get_response cfg1 store0 ("simple" ++ "/" ++ "pkg" ++ "/" ++ "extra") = reject 403 :=
  c6_multi_segment_rejected cfg1 store0 "pkg" "extra" (by decide)
    ⟨by decide, by decide⟩ ⟨by decide, by decide⟩

/-- C7: a `GET` or `HEAD` request whose normalized path is empty,
under a non-empty base path, is answered with status 301, a
`Location` header of `/` followed by the base path, and no body. -/
theorem c7_root_redirect (cfg : Config) (store : Store) (method rawPath : String)
    (hm : method = "GET" ∨ method = "HEAD") (hp : stripSlashes rawPath = "")
    (hbp : cfg.basePath ≠ "") :
    proxy_request cfg store method rawPath =
      { statusCode := 301, headers := some [("Location", "/" ++ cfg.basePath)]
        body := none } := by
  unfold proxy_request
  rw [hp, if_pos hm]
  unfold get_response
  rw [matchPkg_empty_path]
  have h1 : ¬ (cfg.basePath = "") := hbp
  rw [if_neg h1, if_pos rfl]
  rfl

/-- C7 (witness): the theorem applied at base path `simple` and raw
path `/`. -/
theorem c7_witness :
    proxy_request cfg1 store0 "GET" "/" =
      { statusCode := 301, headers := some [("Location", "/" ++ cfg1.basePath)]
        body := none } :=
  c7_root_redirect cfg1 store0 "GET" "/" (Or.inl rfl) (by decide) (by decide)

/-- C8: `presign` hands the signing call exactly the configured TTL
as expiry and the method `GET`; and over the same keys, two TTL
configurations yield anchor lists of equal length whose entries
differ only in the signed URL produced by the signing call — the
display names and their order are TTL-independent. -/
theorem c8_ttl_pass_through (T : Nat) (bucket key : String) (signer : SignParams → String)
    (ttl1 ttl2 : Nat) (keys : List String) :
    (presignParams T bucket key).expiresIn = T ∧
    (presignParams T bucket key).httpMethod = "GET" ∧
    packageAnchors signer ttl1 bucket keys =
      keys.map (fun x => anchorHtml (signer (presignParams ttl1 bucket x)) (basename x)) ∧
    packageAnchors signer ttl2 bucket keys =
      keys.map (fun x => anchorHtml (signer (presignParams ttl2 bucket x)) (basename x)) ∧
    (packageAnchors signer ttl1 bucket keys).length =
      (packageAnchors signer ttl2 bucket keys).length := by
  refine ⟨rfl, rfl, packageAnchors_eq_map .., packageAnchors_eq_map .., ?_⟩
  rw [packageAnchors_eq_map, packageAnchors_eq_map, List.length_map, List.length_map]

/-- C9: for every configuration, store and raw path, the `HEAD`
response envelope equals the `GET` response envelope, body included. -/
theorem c9_head_equals_get (cfg : Config) (store : Store) (rawPath : String) :
    proxy_request cfg store "HEAD" rawPath = proxy_request cfg store "GET" rawPath := by
  simp [proxy_request]

/-- C10: a listing in which some page has no `CommonPrefixes` entry
makes the reindexer raise before the put — the store keeps its
previous cached root index — while `get_package_index` on the very
same pages still answers 200 (pages with no `Contents` entry are
tolerated there). -/
theorem c10_reindex_none_page (bucket : String) (store : Store) (pages : List ListPage)
    (pg : ListPage) (hmem : pg ∈ pages) (hnone : pg.commonPrefixes = none) :
    (∃ e, reindex_bucket bucket pages = Except.error e) ∧
    applyReindex store bucket pages = store ∧
    ∀ (signer : SignParams → String) (ttl : Nat) (b nm : String),
      (get_package_index signer ttl b pages nm).statusCode = 200 := by
  obtain ⟨e, he⟩ := commonPre_error pages pg hmem hnone
  have hr : reindex_bucket bucket pages = Except.error e := by
    unfold reindex_bucket
    rw [he]
    rfl
  exact ⟨⟨e, hr⟩, by simp [applyReindex, hr], fun _ _ _ _ => rfl⟩

/-- C10 (witness): the theorem applied to a concrete one-page listing
with neither `Contents` nor `CommonPrefixes`. -/
theorem c10_witness :
    reindex_bucket "bkt" pagesNone =
      Except.error "TypeError: NoneType object is not iterable" ∧
    applyReindex store0 "bkt" pagesNone = store0 ∧
    (get_package_index signer0 900 "bkt" pagesNone "foo").statusCode = 200 := by
  have h := c10_reindex_none_page "bkt" store0 pagesNone
    { contents := none, commonPrefixes := none } (List.mem_singleton.mpr rfl) rfl
  exact ⟨rfl, h.2.1, h.2.2 signer0 900 "bkt" "foo"⟩

end ServerlessPypi
